import Mathlib

/-!
Verification of the E-LONDA frontend (browser client of a digital voting
platform). The development shallowly embeds the behaviourally relevant
handlers of the repository: the VotingPage mount effect and ballot loader,
the unified login page (HomePage) submit handler, the Login component
submit handler, and the cache-header callback of the static file server.
Stateful React handlers are embedded as pure functions from their inputs
(form data, API outcomes, browser storage contents) to a result record
holding the final component state together with the list of observable
effects (toasts, navigations, storage writes, API calls) in program order.
-/

namespace ELonda

/-! ## JavaScript-style primitives

JS conditionals test truthiness: `null`, `undefined` and the empty string
are falsy. An optional string models a JS value that may be a string,
`null` or `undefined`. -/

/-- Truthiness of a JS string value: absent and empty are falsy. -/
def jsTruthy : Option String → Bool
  | none => false
  | some s => s != ""

/-- JS `a || b` on string values: keeps `a` when truthy, else `b`. -/
def jsOr (a b : Option String) : Option String :=
  if jsTruthy a then a else b

/-- JS `a || b` where the fallback is a plain (string) literal. -/
def jsOrStr (a : Option String) (b : String) : String :=
  match a with
  | some s => if s != "" then s else b
  | none => b

/-- JS `s.includes(c)` for a single character. -/
def jsIncludesChar (s : String) (c : Char) : Bool :=
  s.data.contains c

/-- JS `s.endsWith(t)`. -/
def jsEndsWith (s t : String) : Bool :=
  t.data.isSuffixOf s.data

/-- Substring occurrence on character lists (scan every tail). -/
def charSub (sub : List Char) : List Char → Bool
  | [] => sub.isEmpty
  | c :: cs => sub.isPrefixOf (c :: cs) || charSub sub cs

/-- JS `s.includes(sub)` for a substring. -/
def jsIncludes (s sub : String) : Bool :=
  charSub sub.data s.data

/-! ## Data model (interfaces of the VotingPage and the auth responses) -/

/-- The nested `position` reference carried by a candidate record. -/
structure PositionRef where
  id : String
  name : String
  deriving DecidableEq

/-- A position on the ballot (interface Position in the VotingPage). -/
structure Position where
  id : String
  name : String
  seats : Nat
  votingOpens : String
  votingCloses : String
  deriving DecidableEq

/-- A candidate on the ballot (interface Candidate in the VotingPage). -/
structure Candidate where
  id : String
  name : String
  program : String
  photoUrl : Option String
  status : String
  position : PositionRef
  deriving DecidableEq

/-- The ballot payload returned by the votes API (interface BallotData). -/
structure BallotData where
  positions : List Position
  candidates : List Candidate
  deriving DecidableEq

/-- The user record of an auth-API login response. `status` and `name` may
be absent on the wire, hence optional. -/
structure LoginUser where
  role : String
  status : Option String
  name : Option String
  email : String
  deriving DecidableEq

/-- An auth-API login response: a session token plus the user record. -/
structure LoginResponse where
  token : String
  user : LoginUser
  deriving DecidableEq

/-- The shape of a thrown axios-style error as the handlers read it:
`err.response?.status`, `err.response?.data?.error`, `err.code`,
`err.message`; every field may be absent. -/
structure ApiError where
  status : Option Nat
  dataError : Option String
  code : Option String
  message : Option String
  deriving DecidableEq

/-- A value written to localStorage. `JSON.stringify` of the user record
and of the welcome-message object are kept abstract (the record they
serialise is carried instead of the serialised text; the welcome message
also carries a wall-clock timestamp, which is not modelled). -/
inductive StorageVal where
  | str (s : String)
  | userJson (u : LoginUser)
  | welcomeJson (u : LoginUser)
  deriving DecidableEq

/-- Observable effects of a handler, in program order. -/
inductive Effect where
  | toastError (msg : String)
  | toastSuccess (msg : String)
  | navigate (path : String)
  | navigateReplace (path : String)
  | localStorageSet (key : String) (v : StorageVal)
  | localStorageRemove (key : String)
  | sessionStorageSet (key value : String)
  | apiRequestOTP (regNo : String)
  | apiLogin (email password : String)
  | apiGetBallot (token : String)
  deriving DecidableEq

/-! ## VotingPage: mount effect (token acquisition) -/

/-- Toast shown by the VotingPage when no ballot token can be found. -/
def noTokenMsg : String :=
  "No ballot token found. Please verify your identity first."

/-- Outcome of the VotingPage mount effect: the value passed to
`setBallotToken` (when reached), the emitted effects, and whether
`loadBallot` was invoked for this page load. -/
structure MountResult where
  ballotToken : Option String
  effects : List Effect
  loadBallotStarted : Bool
  deriving DecidableEq

/-- The `useEffect` of the VotingPage. The token is
`location.state?.ballotToken || localStorage.getItem('ballotToken')`;
when falsy the user is toasted and redirected to `/verify` and the
effect returns early, otherwise the token is stored in state and
`loadBallot(token)` is started (recorded as the ballot fetch effect). -/
def votingPageMount (navStateToken stored : Option String) : MountResult :=
  let token := jsOr navStateToken stored
  if jsTruthy token then
    { ballotToken := token
      effects := [Effect.apiGetBallot (token.getD "")]
      loadBallotStarted := true }
  else
    { ballotToken := none
      effects := [Effect.toastError noTokenMsg, Effect.navigate "/verify"]
      loadBallotStarted := false }

/-- Claim C1: on mount the ballot token comes from navigation state when a
token is present there, and otherwise from persisted storage; when both
sources hold a token the navigation-state one wins. -/
theorem votingPageMount_token_precedence (nav stored : Option String) :
    (jsTruthy nav = true → (votingPageMount nav stored).ballotToken = nav) ∧
    (jsTruthy nav = false → jsTruthy stored = true →
      (votingPageMount nav stored).ballotToken = stored) := by
  constructor
  · intro h
    simp [votingPageMount, jsOr, h]
  · intro h h2
    simp [votingPageMount, jsOr, h, h2]

/-- Closed instance of the token-precedence theorem: with a token in both
sources the navigation-state token is used; with only a stored token the
stored token is used. -/
theorem votingPageMount_token_precedence_witness :
    (votingPageMount (some "navTok") (some "storedTok")).ballotToken = some "navTok" ∧
    (votingPageMount none (some "storedTok")).ballotToken = some "storedTok" := by
  constructor
  · exact (votingPageMount_token_precedence (some "navTok") (some "storedTok")).1 (by decide)
  · exact (votingPageMount_token_precedence none (some "storedTok")).2 (by decide) (by decide)

/-- Claim C2: when neither navigation state nor storage yields a token,
the mount effect toasts an error, navigates to `/verify`, and initiates
no ballot fetch. -/
theorem votingPageMount_no_token (nav stored : Option String)
    (h1 : jsTruthy nav = false) (h2 : jsTruthy stored = false) :
    (votingPageMount nav stored).effects =
      [Effect.toastError noTokenMsg, Effect.navigate "/verify"] ∧
    (votingPageMount nav stored).loadBallotStarted = false ∧
    ∀ t, Effect.apiGetBallot t ∉ (votingPageMount nav stored).effects := by
  refine ⟨?_, ?_, ?_⟩ <;> simp [votingPageMount, jsOr, h1, h2]

/-- Closed instance of the missing-token theorem at empty sources. -/
theorem votingPageMount_no_token_witness :
    (votingPageMount none none).effects =
      [Effect.toastError noTokenMsg, Effect.navigate "/verify"] ∧
    (votingPageMount none none).loadBallotStarted = false ∧
    ∀ t, Effect.apiGetBallot t ∉ (votingPageMount none none).effects :=
  votingPageMount_no_token none none (by decide) (by decide)

/-! ## VotingPage: loadBallot -/

/-- Toast shown when positions exist but the candidate list is empty. -/
def noCandidatesMsg : String :=
  "No approved candidates available for voting yet."

/-- Toast shown on a 401/400 ballot-load failure. -/
def invalidTokenMsg : String :=
  "Invalid or expired ballot token. Please verify again."

/-- Outcome of the loadBallot success path: the value passed to
`setBallotData` and the emitted effects (console logging is not
modelled). -/
structure LoadResult where
  ballotData : Option BallotData
  effects : List Effect
  deriving DecidableEq

/-- Success path of `loadBallot`: the ballot state is set from the
response (missing arrays default to empty, not modelled separately since
the response is embedded as plain lists), then a warning toast is shown
exactly when positions exist but the candidate list is empty. -/
def loadBallotSuccess (resp : BallotData) : LoadResult :=
  { ballotData := some { positions := resp.positions, candidates := resp.candidates }
    effects :=
      if resp.positions.length > 0 ∧ resp.candidates.length = 0 then
        [Effect.toastError noCandidatesMsg]
      else [] }

/-- A position for which the response carries no candidate. -/
def positionHasNoCandidate (resp : BallotData) (p : Position) : Bool :=
  resp.candidates.all (fun c => c.position.id != p.id)

/-- Catch handler of `loadBallot`. The 401/400 branch follows the source
(toast, remove the stored token, navigate to verification). The source
file is truncated immediately after that branch; the remaining branch is
modelled from the spec: any other failure is surfaced as a transient,
retryable notification without losing the in-progress selections, so it
only toasts a generic message and leaves storage and the vote-selection
state untouched. The handler never writes the `votes` state, which is
threaded through unchanged. -/
def loadBallotFailure (status : Option Nat) (votes : List (String × String)) :
    List (String × String) × List Effect :=
  if status = some 401 ∨ status = some 400 then
    (votes, [Effect.toastError invalidTokenMsg,
             Effect.localStorageRemove "ballotToken",
             Effect.navigate "/verify"])
  else
    (votes, [Effect.toastError "Failed to load ballot. Please try again."])

/-- Claim C3: a 401 or 400 failure discards the stored ballot token and
returns the user to verification; any other failure only raises a
retryable notification, removes nothing from storage, navigates nowhere,
and the in-progress selections survive on every failure path. -/
theorem loadBallotFailure_handling (status : Option Nat)
    (votes : List (String × String)) :
    ((status = some 401 ∨ status = some 400) →
      (loadBallotFailure status votes).2 =
        [Effect.toastError invalidTokenMsg,
         Effect.localStorageRemove "ballotToken",
         Effect.navigate "/verify"]) ∧
    ((status ≠ some 401 ∧ status ≠ some 400) →
      (loadBallotFailure status votes).2 =
        [Effect.toastError "Failed to load ballot. Please try again."] ∧
      (∀ k, Effect.localStorageRemove k ∉ (loadBallotFailure status votes).2) ∧
      (∀ p, Effect.navigate p ∉ (loadBallotFailure status votes).2)) ∧
    (loadBallotFailure status votes).1 = votes := by
  refine ⟨?_, ?_, ?_⟩
  · intro h
    simp [loadBallotFailure, h]
  · intro h
    refine ⟨?_, ?_, ?_⟩ <;> simp [loadBallotFailure, h.1, h.2]
  · unfold loadBallotFailure
    split <;> rfl

/-- Closed instance of the failure-handling theorem at status 401 (token
expiry path) and status 500 (retryable path), each with a nonempty
selection state that survives. -/
theorem loadBallotFailure_handling_witness :
    (loadBallotFailure (some 401) [("p1", "c1")]).2 =
      [Effect.toastError invalidTokenMsg,
       Effect.localStorageRemove "ballotToken",
       Effect.navigate "/verify"] ∧
    (loadBallotFailure (some 500) [("p1", "c1")]).2 =
      [Effect.toastError "Failed to load ballot. Please try again."] ∧
    (loadBallotFailure (some 500) [("p1", "c1")]).1 = [("p1", "c1")] := by
  refine ⟨?_, ?_, ?_⟩
  · exact (loadBallotFailure_handling (some 401) [("p1", "c1")]).1 (Or.inl rfl)
  · exact (((loadBallotFailure_handling (some 500) [("p1", "c1")]).2.1
      (by refine ⟨?_, ?_⟩ <;> decide)).1)
  · exact (loadBallotFailure_handling (some 500) [("p1", "c1")]).2.2

/-- A ballot response in which the second position has zero eligible
candidates while the first has one. -/
def ballotTwoPositions : BallotData :=
  { positions :=
      [{ id := "p1", name := "President", seats := 1,
         votingOpens := "2025-01-01", votingCloses := "2025-01-02" },
       { id := "p2", name := "Secretary", seats := 1,
         votingOpens := "2025-01-01", votingCloses := "2025-01-02" }]
    candidates :=
      [{ id := "c1", name := "Alice", program := "roads", photoUrl := none,
         status := "APPROVED", position := { id := "p1", name := "President" } }] }

/-- Counterexample to claim C4 as stated: in this response position `p2`
has zero eligible candidates, yet the load emits no warning notification
at all, because the code only warns when the whole candidate list is
empty. -/
theorem loadBallot_empty_position_no_warning :
    ballotTwoPositions.positions.any (positionHasNoCandidate ballotTwoPositions) = true ∧
    (loadBallotSuccess ballotTwoPositions).effects = [] := by
  decide

/-- Claim C4 (amended): ballot state is set from the response and the page
keeps rendering for every successful response; the non-fatal warning
notification is shown exactly when the response has positions but its
candidate list is empty (not per empty position). -/
theorem loadBallotSuccess_sets_state_and_warns (resp : BallotData) :
    (loadBallotSuccess resp).ballotData =
      some { positions := resp.positions, candidates := resp.candidates } ∧
    (Effect.toastError noCandidatesMsg ∈ (loadBallotSuccess resp).effects ↔
      resp.positions ≠ [] ∧ resp.candidates = []) := by
  constructor
  · rfl
  · unfold loadBallotSuccess
    split
    · rename_i h
      simp only [List.mem_singleton, true_iff]
      exact ⟨List.length_pos.mp h.1, List.length_eq_zero.mp h.2⟩
    · rename_i h
      simp only [List.mem_nil_iff, false_iff]
      intro hc
      exact h ⟨List.length_pos.mpr hc.1, List.length_eq_zero.mpr hc.2⟩

/-! ## VotingPage: in-memory vote selection

The `votes` state is declared in the source as a JS object mapping a
position id to a candidate id. A JS object is embedded as an association
list with unique keys: updating an existing key rewrites its binding in
place, a new key is appended. -/

/-- JS object update: rebinds `k` in place when present, appends otherwise. -/
def jsObjectSet (m : List (String × String)) (k v : String) :
    List (String × String) :=
  if m.any (fun e => e.1 = k) then
    m.map (fun e => if e.1 = k then (k, v) else e)
  else
    m ++ [(k, v)]

/-- Modelled from the spec: the candidate-selection handler of the
VotingPage is missing from the truncated source (only the `votes` state
declaration survives). Per the spec the user accumulates at most one
candidate selection per position in local, in-memory state mapping a
position identifier to a candidate identifier, and no server round-trip
occurs until explicit submission: selecting a candidate rebinds the
position in the votes object and emits no effect. -/
def selectCandidate (votes : List (String × String))
    (positionId candidateId : String) :
    List (String × String) × List Effect :=
  (jsObjectSet votes positionId candidateId, [])

/-- Runs a sequence of candidate selections from the empty vote state set
at ballot load, collecting the final vote state and the concatenated
effect trace. -/
def runSelections (sels : List (String × String)) :
    List (String × String) × List Effect :=
  sels.foldl
    (fun acc s =>
      let r := selectCandidate acc.1 s.1 s.2
      (r.1, acc.2 ++ r.2))
    ([], [])

/-- A JS object update keeps the key list duplicate-free. -/
theorem jsObjectSet_keys_nodup (m : List (String × String)) (k v : String)
    (hm : (m.map Prod.fst).Nodup) :
    ((jsObjectSet m k v).map Prod.fst).Nodup := by
  unfold jsObjectSet
  split
  · have : (m.map (fun e => if e.1 = k then (k, v) else e)).map Prod.fst
        = m.map Prod.fst := by
      rw [List.map_map]
      refine List.map_congr_left ?_
      intro e _
      by_cases he : e.1 = k
      · simp [he]
      · simp [he]
    rw [this]
    exact hm
  · rename_i h
    rw [List.map_append]
    rw [List.nodup_append]
    refine ⟨hm, List.nodup_singleton k, ?_⟩
    intro a ha hb
    simp only [List.map_cons, List.map_nil, List.mem_singleton] at hb
    subst hb
    rw [List.mem_map] at ha
    obtain ⟨e, he, hek⟩ := ha
    exact h (List.any_eq_true.mpr ⟨e, he, decide_eq_true hek⟩)

/-- Selections starting from a duplicate-free state keep the key list
duplicate-free. -/
theorem selections_keys_nodup (sels : List (String × String)) :
    ∀ m : List (String × String), (m.map Prod.fst).Nodup →
      (((sels.foldl (fun acc s => jsObjectSet acc s.1 s.2) m)).map Prod.fst).Nodup := by
  induction sels with
  | nil => intro m hm; simpa using hm
  | cons s rest ih =>
      intro m hm
      exact ih _ (jsObjectSet_keys_nodup m s.1 s.2 hm)

/-- The state component of `runSelections` is the plain fold of JS object
updates, and its effect trace accumulates nothing. -/
theorem runSelections_spec (sels : List (String × String)) :
    ∀ m : List (String × String), ∀ acc : List Effect,
      (sels.foldl
        (fun acc s =>
          let r := selectCandidate acc.1 s.1 s.2
          (r.1, acc.2 ++ r.2)) (m, acc))
      = (sels.foldl (fun acc s => jsObjectSet acc s.1 s.2) m, acc) := by
  induction sels with
  | nil => intro m acc; rfl
  | cons s rest ih =>
      intro m acc
      rw [List.foldl_cons, List.foldl_cons]
      simp only [selectCandidate, List.append_nil] at ih ⊢
      exact ih (jsObjectSet m s.1 s.2) acc

/-- Claim C6: after any sequence of candidate selections the in-memory
vote state binds each position identifier to at most one candidate
identifier (its key list is duplicate-free), and the selection phase
emits no effect at all, in particular no server round-trip. -/
theorem votes_one_choice_per_position_no_roundtrip
    (sels : List (String × String)) :
    ((runSelections sels).1.map Prod.fst).Nodup ∧
    (runSelections sels).2 = [] := by
  unfold runSelections
  rw [runSelections_spec sels [] []]
  exact ⟨selections_keys_nodup sels [] (by simp), rfl⟩

/-! ## HomePage: unified login -/

/-- Detects whether the login identifier is a registration number: any
input without the character at sign is treated as a registration number. -/
def isRegistrationNumber (input : String) : Bool :=
  if jsIncludesChar input '@' then false else true

/-- Error shown to a deactivated officer. -/
def deactivatedMsg : String :=
  "Your account has been deactivated. Please contact the administrator for assistance."

/-- The role switch shared verbatim by the HomePage and the Login
component: maps the `role` field of the logged-in user to the dashboard
route, with a fallback to the root route. -/
def roleDashboard (role : String) : String :=
  if role = "ADMIN" then "/admin/dashboard"
  else if role = "OFFICER" then "/officer/dashboard"
  else if role = "CANDIDATE" then "/candidate/dashboard"
  else "/"

/-- Outcome of a submit handler: the final error-state string (empty when
never set after the initial reset), the emitted effects, and the final
loading flag. -/
structure SubmitResult where
  errorMsg : String
  effects : List Effect
  loading : Bool
  deriving DecidableEq

/-- The HomePage `onSubmit` handler. Its API calls are embedded as
parameters holding the outcome of `verificationAPI.requestOTP` and of
`authAPI.login`, each recorded as an effect when performed. The
registration-number branch requests an OTP, stores the pending
registration number in sessionStorage and navigates to `/verify` on
success; the email branch requires a truthy password, checks the
deactivated-officer case, persists the session and navigates by role. -/
def homePageSubmit (identifier : String) (password : Option String)
    (otpResult : Except ApiError Unit)
    (loginResult : Except ApiError LoginResponse) : SubmitResult :=
  if isRegistrationNumber identifier then
    match otpResult with
    | .ok _ =>
        { errorMsg := ""
          effects := [Effect.apiRequestOTP identifier,
                      Effect.sessionStorageSet "pendingRegNo" identifier,
                      Effect.sessionStorageSet "otpAlreadySent" "true",
                      Effect.navigate "/verify"]
          loading := false }
    | .error e =>
        { errorMsg := jsOrStr e.dataError "Failed to send OTP. Please try again."
          effects := [Effect.apiRequestOTP identifier]
          loading := false }
  else
    if jsTruthy password = false then
      { errorMsg := "Password is required for email login"
        effects := []
        loading := false }
    else
      match loginResult with
      | .ok resp =>
          if resp.user.role = "OFFICER" ∧ resp.user.status = some "INACTIVE" then
            { errorMsg := deactivatedMsg
              effects := [Effect.apiLogin identifier (password.getD ""),
                          Effect.localStorageRemove "token",
                          Effect.localStorageRemove "user"]
              loading := false }
          else
            { errorMsg := ""
              effects := [Effect.apiLogin identifier (password.getD ""),
                          Effect.localStorageSet "token" (StorageVal.str resp.token),
                          Effect.localStorageSet "user" (StorageVal.userJson resp.user),
                          Effect.localStorageSet "welcomeMessage"
                            (StorageVal.welcomeJson resp.user),
                          Effect.navigateReplace (roleDashboard resp.user.role)]
              loading := false }
      | .error e =>
          let msg := jsOrStr e.dataError "Login failed. Please try again."
          { errorMsg :=
              if jsIncludes msg "inactive" ∨ jsIncludes msg "deactivated" then
                deactivatedMsg
              else msg
            effects := [Effect.apiLogin identifier (password.getD "")]
            loading := false }

/-- Claim C5: the identifier is treated as a registration number exactly
when it lacks the at sign; in that case an OTP request is made, no
email/password login runs, and on OTP success the user is navigated to
`/verify`; otherwise no OTP request is made and, given a truthy
password, the email/password login call runs. -/
theorem homePage_identifier_branching (identifier : String)
    (password : Option String) (otpResult : Except ApiError Unit)
    (loginResult : Except ApiError LoginResponse) :
    (isRegistrationNumber identifier = !(jsIncludesChar identifier '@')) ∧
    (jsIncludesChar identifier '@' = false →
      Effect.apiRequestOTP identifier ∈
        (homePageSubmit identifier password otpResult loginResult).effects ∧
      (∀ em pw, Effect.apiLogin em pw ∉
        (homePageSubmit identifier password otpResult loginResult).effects) ∧
      (otpResult = .ok () → Effect.navigate "/verify" ∈
        (homePageSubmit identifier password otpResult loginResult).effects)) ∧
    (jsIncludesChar identifier '@' = true →
      (∀ r, Effect.apiRequestOTP r ∉
        (homePageSubmit identifier password otpResult loginResult).effects) ∧
      (jsTruthy password = true →
        Effect.apiLogin identifier (password.getD "") ∈
          (homePageSubmit identifier password otpResult loginResult).effects)) := by
  refine ⟨?_, ?_, ?_⟩
  · unfold isRegistrationNumber
    cases h : jsIncludesChar identifier '@' <;> simp [h]
  · intro h
    refine ⟨?_, ?_, ?_⟩
    · cases otpResult <;>
        simp [homePageSubmit, isRegistrationNumber, h]
    · intro em pw
      cases otpResult <;>
        simp [homePageSubmit, isRegistrationNumber, h]
    · intro hok
      subst hok
      simp [homePageSubmit, isRegistrationNumber, h]
  · intro h
    constructor
    · intro r
      cases loginResult with
      | ok resp =>
          by_cases hp : jsTruthy password = true
          · by_cases hin : resp.user.role = "OFFICER" ∧ resp.user.status = some "INACTIVE" <;>
              simp [homePageSubmit, isRegistrationNumber, h, hp, hin]
          · have hpf : jsTruthy password = false := by simpa using hp
            simp [homePageSubmit, isRegistrationNumber, h, hpf]
      | error e =>
          by_cases hp : jsTruthy password = true
          · simp [homePageSubmit, isRegistrationNumber, h, hp]
          · have hpf : jsTruthy password = false := by simpa using hp
            simp [homePageSubmit, isRegistrationNumber, h, hpf]
    · intro hp
      cases loginResult with
      | ok resp =>
          by_cases hin : resp.user.role = "OFFICER" ∧ resp.user.status = some "INACTIVE" <;>
            simp [homePageSubmit, isRegistrationNumber, h, hp, hin]
      | error e =>
          simp [homePageSubmit, isRegistrationNumber, h, hp]

/-- Closed instance of the branching theorem: a registration number leads
to an OTP request and a `/verify` navigation, an email with password
leads to the login call. -/
theorem homePage_identifier_branching_witness :
    Effect.apiRequestOTP "M24B13" ∈
      (homePageSubmit "M24B13" none (.ok ())
        (.error { status := none, dataError := none, code := none, message := none })).effects ∧
    Effect.navigate "/verify" ∈
      (homePageSubmit "M24B13" none (.ok ())
        (.error { status := none, dataError := none, code := none, message := none })).effects ∧
    Effect.apiLogin "admin@org.com" "secret123" ∈
      (homePageSubmit "admin@org.com" (some "secret123") (.ok ())
        (.error { status := none, dataError := none, code := none, message := none })).effects := by
  have h1 := homePage_identifier_branching "M24B13" none (.ok ())
    (.error { status := none, dataError := none, code := none, message := none })
  have h2 := homePage_identifier_branching "admin@org.com" (some "secret123") (.ok ())
    (.error { status := none, dataError := none, code := none, message := none })
  refine ⟨(h1.2.1 (by decide)).1, (h1.2.1 (by decide)).2.2 rfl, ?_⟩
  exact (h2.2.2 (by decide)).2 (by decide)

/-- API error with every field absent, used as an irrelevant OTP outcome
in email-branch instantiations. -/
def emptyApiError : ApiError :=
  { status := none, dataError := none, code := none, message := none }

/-- The login response of a deactivated officer. -/
def inactiveOfficerLogin : Except ApiError LoginResponse :=
  .ok { token := "tok-1"
        user := { role := "OFFICER", status := some "INACTIVE",
                  name := some "Olive", email := "officer@org.com" } }

/-- Counterexample to claim C7 as stated: on the unified login page a
successful login whose user has role OFFICER and status INACTIVE produces
no navigation at all, so the navigation target is not determined solely
by the role field. -/
theorem homePage_inactive_officer_counterexample :
    (homePageSubmit "officer@org.com" (some "secret123") (.error emptyApiError)
        inactiveOfficerLogin).effects =
      [Effect.apiLogin "officer@org.com" "secret123",
       Effect.localStorageRemove "token",
       Effect.localStorageRemove "user"] ∧
    Effect.navigateReplace "/officer/dashboard" ∉
      (homePageSubmit "officer@org.com" (some "secret123") (.error emptyApiError)
        inactiveOfficerLogin).effects ∧
    Effect.navigate "/officer/dashboard" ∉
      (homePageSubmit "officer@org.com" (some "secret123") (.error emptyApiError)
        inactiveOfficerLogin).effects := by
  decide

/-! ## Login component -/

/-- Error-message mapping of the Login component catch block: connection
errors, 401, 500, a backend-provided error, the thrown message, then the
generic fallback, in that order. -/
def loginErrorMessage (e : ApiError) : String :=
  if e.code = some "ECONNREFUSED" ∨ e.code = some "ERR_NETWORK" then
    "Cannot connect to server. Please check if the backend is running."
  else if e.status = some 401 then
    jsOrStr e.dataError "Invalid email or password."
  else if e.status = some 500 then
    "Server error. Please try again later."
  else if jsTruthy e.dataError then
    e.dataError.getD ""
  else if jsTruthy e.message then
    e.message.getD ""
  else
    "Login failed. Please try again."

/-- The Login component `onSubmit` handler. On success it persists the
token, the user and a welcome message and navigates by role; on failure
it only sets the mapped error message; the loading flag ends false on
both paths (the `finally` block). Console logging is not modelled. -/
def loginSubmit (email pw : String)
    (result : Except ApiError LoginResponse) : SubmitResult :=
  match result with
  | .ok resp =>
      { errorMsg := ""
        effects := [Effect.apiLogin email pw,
                    Effect.localStorageSet "token" (StorageVal.str resp.token),
                    Effect.localStorageSet "user" (StorageVal.userJson resp.user),
                    Effect.localStorageSet "welcomeMessage"
                      (StorageVal.welcomeJson resp.user),
                    Effect.navigate (roleDashboard resp.user.role)]
        loading := false }
  | .error e =>
      { errorMsg := loginErrorMessage e
        effects := [Effect.apiLogin email pw]
        loading := false }

/-- Claim C7 (amended): after a successful email/password login the Login
component always navigates by the role mapping (ADMIN, OFFICER and
CANDIDATE to their dashboards, anything else to the root route); the
unified login page navigates by the same mapping except that a user with
role OFFICER and status INACTIVE is not navigated anywhere. -/
theorem role_navigation_amended (email pw identifier : String)
    (password : Option String) (otpResult : Except ApiError Unit)
    (resp : LoginResponse)
    (hid : jsIncludesChar identifier '@' = true)
    (hpw : jsTruthy password = true)
    (hnin : ¬(resp.user.role = "OFFICER" ∧ resp.user.status = some "INACTIVE")) :
    Effect.navigate (roleDashboard resp.user.role) ∈
      (loginSubmit email pw (.ok resp)).effects ∧
    Effect.navigateReplace (roleDashboard resp.user.role) ∈
      (homePageSubmit identifier password otpResult (.ok resp)).effects ∧
    roleDashboard "ADMIN" = "/admin/dashboard" ∧
    roleDashboard "OFFICER" = "/officer/dashboard" ∧
    roleDashboard "CANDIDATE" = "/candidate/dashboard" ∧
    (resp.user.role ≠ "ADMIN" → resp.user.role ≠ "OFFICER" →
      resp.user.role ≠ "CANDIDATE" → roleDashboard resp.user.role = "/") := by
  refine ⟨?_, ?_, by decide, by decide, by decide, ?_⟩
  · simp [loginSubmit]
  · simp [homePageSubmit, isRegistrationNumber, hid, hpw, hnin]
  · intro h1 h2 h3
    simp [roleDashboard, h1, h2, h3]

/-- Closed instance of the amended role-navigation theorem for an ADMIN
login on both pages. -/
theorem role_navigation_amended_witness :
    Effect.navigate "/admin/dashboard" ∈
      (loginSubmit "admin@org.com" "secret123"
        (.ok { token := "t1"
               user := { role := "ADMIN", status := none, name := some "Ada",
                         email := "admin@org.com" } })).effects ∧
    Effect.navigateReplace "/admin/dashboard" ∈
      (homePageSubmit "admin@org.com" (some "secret123") (.error emptyApiError)
        (.ok { token := "t1"
               user := { role := "ADMIN", status := none, name := some "Ada",
                         email := "admin@org.com" } })).effects := by
  have h := role_navigation_amended "admin@org.com" "secret123" "admin@org.com"
    (some "secret123") (.error emptyApiError)
    { token := "t1"
      user := { role := "ADMIN", status := none, name := some "Ada",
                email := "admin@org.com" } }
    (by decide) (by decide) (by decide)
  exact ⟨h.1, h.2.1⟩

/-- Claim C9: on the unified login page a successful login returning an
OFFICER with INACTIVE status sets the deactivation error, removes the
`token` and `user` keys from localStorage, and navigates nowhere. -/
theorem homePage_inactive_officer_handling (identifier : String)
    (password : Option String) (otpResult : Except ApiError Unit)
    (resp : LoginResponse)
    (hid : jsIncludesChar identifier '@' = true)
    (hpw : jsTruthy password = true)
    (hrole : resp.user.role = "OFFICER")
    (hstatus : resp.user.status = some "INACTIVE") :
    (homePageSubmit identifier password otpResult (.ok resp)).errorMsg =
      deactivatedMsg ∧
    Effect.localStorageRemove "token" ∈
      (homePageSubmit identifier password otpResult (.ok resp)).effects ∧
    Effect.localStorageRemove "user" ∈
      (homePageSubmit identifier password otpResult (.ok resp)).effects ∧
    ∀ p, Effect.navigate p ∉
        (homePageSubmit identifier password otpResult (.ok resp)).effects ∧
      Effect.navigateReplace p ∉
        (homePageSubmit identifier password otpResult (.ok resp)).effects := by
  refine ⟨?_, ?_, ?_, ?_⟩ <;>
    simp [homePageSubmit, isRegistrationNumber, hid, hpw, hrole, hstatus]

/-- Closed instance of the deactivated-officer theorem at a concrete
officer login. -/
theorem homePage_inactive_officer_handling_witness :
    (homePageSubmit "officer@org.com" (some "secret123") (.error emptyApiError)
      inactiveOfficerLogin).errorMsg = deactivatedMsg ∧
    Effect.localStorageRemove "token" ∈
      (homePageSubmit "officer@org.com" (some "secret123") (.error emptyApiError)
        inactiveOfficerLogin).effects ∧
    Effect.localStorageRemove "user" ∈
      (homePageSubmit "officer@org.com" (some "secret123") (.error emptyApiError)
        inactiveOfficerLogin).effects := by
  have h := homePage_inactive_officer_handling "officer@org.com" (some "secret123")
    (.error emptyApiError)
    { token := "tok-1"
      user := { role := "OFFICER", status := some "INACTIVE",
                name := some "Olive", email := "officer@org.com" } }
    (by decide) (by decide) rfl rfl
  exact ⟨h.1, h.2.1, h.2.2.1⟩

/-- A JS fallback with a nonempty literal is nonempty. -/
theorem jsOrStr_ne_empty (a : Option String) (b : String) (hb : b ≠ "") :
    jsOrStr a b ≠ "" := by
  cases a with
  | none => exact hb
  | some s =>
      simp only [jsOrStr]
      split
      · rename_i hs
        exact bne_iff_ne.mp hs
      · exact hb

/-- A truthy JS string value is a nonempty string. -/
theorem getD_ne_empty_of_jsTruthy (a : Option String) (h : jsTruthy a = true) :
    a.getD "" ≠ "" := by
  cases a with
  | none => simp [jsTruthy] at h
  | some s =>
      simp only [Option.getD_some]
      exact bne_iff_ne.mp (by simpa [jsTruthy] using h)

/-- The error message mapped by the Login catch block is never empty. -/
theorem loginErrorMessage_ne_empty (e : ApiError) :
    loginErrorMessage e ≠ "" := by
  unfold loginErrorMessage
  split
  · decide
  · split
    · exact jsOrStr_ne_empty e.dataError _ (by decide)
    · split
      · decide
      · split
        · rename_i h
          exact getD_ne_empty_of_jsTruthy e.dataError h
        · split
          · rename_i h
            exact getD_ne_empty_of_jsTruthy e.message h
          · decide

/-- Claim C10: when the Login submit handler fails, nothing is written to
localStorage, a nonempty error message is set, and the loading flag ends
false; on success the loading flag also ends false. -/
theorem loginSubmit_failure_no_storage (email pw : String) (e : ApiError) :
    (∀ k v, Effect.localStorageSet k v ∉
      (loginSubmit email pw (.error e)).effects) ∧
    (loginSubmit email pw (.error e)).errorMsg = loginErrorMessage e ∧
    (loginSubmit email pw (.error e)).errorMsg ≠ "" ∧
    (loginSubmit email pw (.error e)).loading = false ∧
    (∀ resp : LoginResponse, (loginSubmit email pw (.ok resp)).loading = false) := by
  refine ⟨?_, rfl, loginErrorMessage_ne_empty e, rfl, ?_⟩
  · intro k v
    simp [loginSubmit]
  · intro resp
    rfl

/-- Closed instance of the failure theorem at a 401 error. -/
theorem loginSubmit_failure_no_storage_witness :
    (∀ k v, Effect.localStorageSet k v ∉
      (loginSubmit "admin@org.com" "secret123"
        (.error { status := some 401, dataError := none, code := none,
                  message := none })).effects) ∧
    (loginSubmit "admin@org.com" "secret123"
      (.error { status := some 401, dataError := none, code := none,
                message := none })).errorMsg ≠ "" ∧
    (loginSubmit "admin@org.com" "secret123"
      (.error { status := some 401, dataError := none, code := none,
                message := none })).loading = false := by
  have h := loginSubmit_failure_no_storage "admin@org.com" "secret123"
    { status := some 401, dataError := none, code := none, message := none }
  exact ⟨h.1, h.2.2.1, h.2.2.2.1⟩

/-! ## Static file server: cache headers -/

/-- Cache-Control value set for HTML entry documents. -/
def htmlCacheControl : String := "public, max-age=0, must-revalidate"

/-- Cache-Control value set for hashed JS/CSS asset bundles. -/
def assetCacheControl : String := "public, max-age=31536000, immutable"

/-- The `setHeaders` callback of `express.static` in server.cjs, returning
the Cache-Control value it sets for a served file path, if any. The two
ifs are sequential as in the source: the JS/CSS test (the regexp matching
a dot followed by js or css at the end of the path) runs after the HTML
test and would override it if both ever matched. -/
def setHeadersCacheControl (p : String) : Option String :=
  let h : Option String :=
    if jsEndsWith p ".html" then some htmlCacheControl else none
  if jsEndsWith p ".js" || jsEndsWith p ".css" then some assetCacheControl
  else h

/-- Two suffix tests with incompatible endings cannot both hold: a path
ending in `.html` ends neither in `.js` nor in `.css`. -/
theorem endsWith_html_excl (p : String) (h : jsEndsWith p ".html" = true) :
    jsEndsWith p ".js" = false ∧ jsEndsWith p ".css" = false := by
  unfold jsEndsWith at h
  rw [List.isSuffixOf_iff_suffix] at h
  constructor
  · by_contra hb
    rw [Bool.not_eq_false, jsEndsWith, List.isSuffixOf_iff_suffix] at hb
    rcases List.suffix_or_suffix_of_suffix hb h with hc | hc
    · exact absurd hc (by decide)
    · exact absurd hc (by decide)
  · by_contra hb
    rw [Bool.not_eq_false, jsEndsWith, List.isSuffixOf_iff_suffix] at hb
    rcases List.suffix_or_suffix_of_suffix hb h with hc | hc
    · exact absurd hc (by decide)
    · exact absurd hc (by decide)

/-- Claim C8: every path ending in `.html` gets the revalidating
Cache-Control header, and every path ending in `.js` or `.css` gets the
immutable one-year header. -/
theorem server_cache_headers (p : String) :
    (jsEndsWith p ".html" = true →
      setHeadersCacheControl p = some htmlCacheControl) ∧
    (jsEndsWith p ".js" = true ∨ jsEndsWith p ".css" = true →
      setHeadersCacheControl p = some assetCacheControl) := by
  constructor
  · intro h
    have hx := endsWith_html_excl p h
    simp [setHeadersCacheControl, h, hx.1, hx.2]
  · intro h
    rcases h with h | h <;> simp [setHeadersCacheControl, h]

/-- Closed instance of the cache-header theorem at concrete paths. -/
theorem server_cache_headers_witness :
    setHeadersCacheControl "/dist/index.html" = some htmlCacheControl ∧
    setHeadersCacheControl "/dist/assets/app.3f2a.js" = some assetCacheControl ∧
    setHeadersCacheControl "/dist/assets/app.3f2a.css" = some assetCacheControl := by
  refine ⟨?_, ?_, ?_⟩
  · exact (server_cache_headers "/dist/index.html").1 (by decide)
  · exact (server_cache_headers "/dist/assets/app.3f2a.js").2 (Or.inl (by decide))
  · exact (server_cache_headers "/dist/assets/app.3f2a.css").2 (Or.inr (by decide))

end ELonda
